import Mathlib

/-!
Verification development for the swap-initiation orchestration flow
(`initSwap` and its inner `confirmSwap` closure in the repository's swap
module, bundled in `src/account/importAccounts.js`).

The JavaScript flow is shallowly embedded as a deterministic interpreter
over an environment (`Env`) that fixes the outcome of every external
suspension point: each device command, the rate-lock network call, the
account bridge's prepare/status calls and the per-family address-parameter
lookups.  Time is counted in completed suspension points (each `await` in
the source is one suspension point).  Cancellation is represented by the
index of the suspension point during which the consumer unsubscribed; the
rxjs subscriber semantics are modelled explicitly: an emission reaches the
consumer only if the subscriber is neither completed nor unsubscribed at
the moment of the emission.
-/

namespace InitSwap

/-- Chain-agnostic draft transaction: exactly the fields the flow reads or
writes (`transaction.amount` at the rate-lock request, and the mutable
`recipient` overwritten by `accountBridge.updateTransaction`). -/
structure Transaction where
  amount : ℤ
  recipient : String
  deriving DecidableEq

/-- One element of the rate-lock response's `data` array
(`swapId`, `provider`, `payinAddress`, `binaryPayload`, `signature`). -/
structure SwapResultData where
  swapId : String
  provider : String
  payinAddress : String
  payloadHex : String
  signatureHex : String
  deriving DecidableEq

/-- The resolved value of the rate-lock network call; `data` is `none` when
the response object lacks a `data` field (the JavaScript `!res.data` test). -/
structure NetResponse where
  data : Option (List SwapResultData)
  deriving DecidableEq

/-- Errors that can travel through the flow and end up inside the
`init-swap-error` event. -/
inductive SwapError where
  /-- `new SwapGenericAPIError()` created in the catch of the network call. -/
  | swapGenericAPIError
  /-- a thrown `new Error(msg)` (the non-CryptoCurrency checks). -/
  | jsError (msg : String)
  /-- `invariant(cond, msg)` failing (the abandon-seed recipient check). -/
  | invariantViolation (msg : String)
  /-- the TypeError raised by destructuring `res.data[0]` when `data` is `[]`. -/
  | typeError
  /-- a validation error object thrown from `errors.recipient || errors.amount`. -/
  | bridgeError (e : String)
  /-- a rejection coming from a device command or another awaited collaborator. -/
  | deviceError (e : String)
  deriving DecidableEq

/-- The error thrown by both non-CryptoCurrency checks in the source. -/
def UnsupportedCurrencyError : SwapError :=
  .jsError "How do I handle non CryptoCurrencies"

/-- The error thrown when the post-substitution recipient equals the
abandon-seed sentinel address. -/
def SecurityInvariantViolation : SwapError :=
  .invariantViolation "Recipient address should never be the abandonseed address"

/-- The events of the produced stream: `init-swap-requested`,
`init-swap-result` (with the prepared transaction and `swapId`) and
`init-swap-error`. -/
inductive Event where
  | requested
  | result (transaction : Transaction) (swapId : String)
  | error (e : SwapError)
  deriving DecidableEq

/-- Terminal events are `init-swap-result` and `init-swap-error`;
`init-swap-requested` is informational. -/
def Event.isTerminal : Event → Bool
  | .requested => false
  | .result _ _ => true
  | .error _ => true

/-- The device commands of the swap session, in the source's vocabulary. -/
inductive DeviceCmd where
  | startNewTransaction
  | setPartnerKey
  | checkPartner
  | processTransaction
  | checkTransactionSignature
  | checkPayoutAddress
  | checkRefundAddress
  | signCoinTransaction
  deriving DecidableEq

/-- The account-bridge calls made on the draft transaction. -/
inductive BridgeCall where
  | updateTransaction
  | prepareTransaction
  | getTransactionStatus
  deriving DecidableEq

/-- One observable item of a run: a delivered stream event (with the
suspension-point time at which it was emitted), an issued device command,
or an issued bridge call. -/
inductive Item where
  | ev (t : ℕ) (e : Event)
  | dev (d : DeviceCmd)
  | bridge (b : BridgeCall)
  deriving DecidableEq

/-- The object returned by `accountBridge.getTransactionStatus`. -/
structure TxStatus where
  recipientError : Option String
  amountError : Option String
  estimatedFees : ℤ
  deriving DecidableEq

/-- Round a rational to an integer, half away from zero: the
`ROUND_HALF_UP` rounding mode of bignumber.js. -/
def halfUpRound (q : ℚ) : ℤ :=
  if q < 0 then -⌊-q + 1 / 2⌋ else ⌊q + 1 / 2⌋

/-- `BigNumber#div` under the library's default configuration: the exact
quotient rounded to `DECIMAL_PLACES = 20` decimal places with
`ROUND_HALF_UP`.  This is the semantics of
`amount.div(BigNumber(10).pow(unitFrom.magnitude))` in the source. -/
def bnDiv (a b : ℚ) : ℚ :=
  (halfUpRound (a / b * 10 ^ 20) : ℚ) / 10 ^ 20

/-- Cancellation test: `c = some k` means the consumer unsubscribed while
the `k`-th awaited call was in flight.  The closure's `unsubscribed` flag
therefore reads `true` whenever consulted at time `≥ k`, and the
subscriber is closed for every delivery attempted at time `≥ k`. -/
def isCancelled (c : Option ℕ) (t : ℕ) : Bool :=
  match c with
  | none => false
  | some k => decide (k ≤ t)

/-- An `o.next e` performed at time `t`: the event is delivered only when
the subscriber is still open (rxjs discards emissions after an
unsubscription). -/
def emit (c : Option ℕ) (t : ℕ) (e : Event) : List Item :=
  if isCancelled c t then [] else [Item.ev t e]

/-- Environment of one invocation: the outcome of every external call the
flow can make.  Synchronous pure lookups on the inputs
(`getAccountCurrency`, `getAccountUnit`, `getAbandonSeedAddress`) are
folded into fields; collaborators specified only at their interface
boundary (`getProviderNameAndSignature`, `getCurrencySwapConfig`,
`getAccountBridge`) are total lookups, per the spec's interface section. -/
structure Env where
  /-- `getAccountUnit(exchange.fromAccount).magnitude`. -/
  magnitude : ℕ
  /-- `getAccountCurrency(fromAccount).id`. -/
  refundCurrencyId : String
  /-- `getAccountCurrency(fromAccount).type`. -/
  refundCurrencyType : String
  /-- `getAccountCurrency(toAccount).type`. -/
  payoutCurrencyType : String
  /-- `getAbandonSeedAddress` as a lookup from currency id. -/
  abandonSeedAddress : String → String
  /-- outcome of `swap.startNewTransaction()` (suspension 1). -/
  startNewTransactionR : Except SwapError String
  /-- outcome of the `network(...)` POST (suspension 2); a resolved value of
  `none` models a falsy `res`. -/
  networkR : Except Unit (Option NetResponse)
  /-- outcome of `accountBridge.prepareTransaction` (suspension 3). -/
  prepareTransactionR : Transaction → Except SwapError Transaction
  /-- outcome of `accountBridge.getTransactionStatus` (suspension 4). -/
  getTransactionStatusR : Transaction → Except SwapError TxStatus
  /-- outcome of `swap.setPartnerKey` (suspension 5). -/
  setPartnerKeyR : Except SwapError Unit
  /-- outcome of `swap.checkPartner` (suspension 6). -/
  checkPartnerR : Except SwapError Unit
  /-- outcome of `swap.processTransaction` (suspension 7). -/
  processTransactionR : Except SwapError Unit
  /-- outcome of the synchronous `secp256k1.signatureExport` re-encoding,
  which throws on a malformed signature (between suspensions 7 and 8). -/
  signatureExportR : Except SwapError Unit
  /-- outcome of `swap.checkTransactionSignature` (suspension 8). -/
  checkTransactionSignatureR : Except SwapError Unit
  /-- outcome of the payout `getSerializedAddressParameters` (suspension 9). -/
  payoutAddressParamsR : Except SwapError Unit
  /-- outcome of `swap.checkPayoutAddress` (suspension 10). -/
  checkPayoutAddressR : Except SwapError Unit
  /-- outcome of the refund `getSerializedAddressParameters` (suspension 11). -/
  refundAddressParamsR : Except SwapError Unit
  /-- outcome of `swap.checkRefundAddress` (suspension 12). -/
  checkRefundAddressR : Except SwapError Unit
  /-- outcome of `swap.signCoinTransaction` (suspension 13). -/
  signCoinTransactionR : Except SwapError Unit

/-- The observable outcome of one invocation. -/
structure RunOut where
  /-- delivered events, issued device commands and issued bridge calls, in
  program order. -/
  trace : List Item
  /-- whether `o.complete()` was delivered through an open subscriber. -/
  completed : Bool
  /-- the draft transaction's recipient right after the
  `updateTransaction` substitution, when that point was reached. -/
  postSubstRecipient : Option String
  /-- the `amountFrom` value handed to the rate-lock network call, when
  that call was made. -/
  apiAmount : Option ℚ
  deriving DecidableEq

/-- One awaited call: on rejection the promise returned by `confirmSwap`
rejects, so the rejection handler emits `init-swap-error` (suppressed by a
closed subscriber) and completes; on resolution the flow continues. -/
def awaitStep (c : Option ℕ) (pre : List Item) (t : ℕ)
    (r : Except SwapError Unit) (ps : Option String) (api : Option ℚ)
    (k : List Item → RunOut) : RunOut :=
  match r with
  | .error e =>
      { trace := pre ++ emit c t (.error e)
        completed := !isCancelled c t
        postSubstRecipient := ps
        apiAmount := api }
  | .ok _ => k pre

/-- The full `initSwap` flow (the non-mock path of the source): the
subscription runs `confirmSwap()` and installs the resolution/rejection
handlers and the teardown that sets `unsubscribed`.  `tx` is the draft
transaction input and `c` the cancellation point (`none`: never
cancelled). -/
def initSwap (env : Env) (tx : Transaction) (c : Option ℕ) : RunOut :=
  -- const deviceTransactionId = await swap.startNewTransaction()
  match env.startNewTransactionR with
  | .error e =>
      { trace := [Item.dev .startNewTransaction] ++ emit c 1 (.error e)
        completed := !isCancelled c 1
        postSubstRecipient := none
        apiAmount := none }
  | .ok _deviceTransactionId =>
    -- const apiAmount = amount.div(BigNumber(10).pow(unitFrom.magnitude))
    let apiAmount : ℚ := bnDiv (tx.amount : ℚ) ((10 : ℚ) ^ env.magnitude)
    -- try { res = await network({ ... amountFrom: apiAmount ... }) } catch ...
    match env.networkR with
    | .error _ =>
        -- catch: o.next(init-swap-error SwapGenericAPIError); o.complete();
        -- unsubscribed = true; then the line-220 guard returns.
        { trace := [Item.dev .startNewTransaction] ++
            emit c 2 (.error .swapGenericAPIError)
          completed := !isCancelled c 2
          postSubstRecipient := none
          apiAmount := some apiAmount }
    | .ok none =>
        -- if (unsubscribed || !res || !res.data) return  (res falsy)
        { trace := [Item.dev .startNewTransaction]
          completed := !isCancelled c 2
          postSubstRecipient := none
          apiAmount := some apiAmount }
    | .ok (some res) =>
      match res.data with
      | none =>
          -- if (unsubscribed || !res || !res.data) return  (no data field)
          { trace := [Item.dev .startNewTransaction]
            completed := !isCancelled c 2
            postSubstRecipient := none
            apiAmount := some apiAmount }
      | some ds =>
        if isCancelled c 2 then
          -- if (unsubscribed || ...) return
          { trace := [Item.dev .startNewTransaction]
            completed := false
            postSubstRecipient := none
            apiAmount := some apiAmount }
        else
          match ds with
          | [] =>
              -- const { swapId, provider } = res.data[0]  with data = []:
              -- destructuring undefined throws, the rejection handler fires.
              { trace := [Item.dev .startNewTransaction] ++
                  emit c 2 (.error .typeError)
                completed := !isCancelled c 2
                postSubstRecipient := none
                apiAmount := some apiAmount }
          | sr :: _ =>
            -- if (payoutCurrency.type !== "CryptoCurrency") throw ...
            if env.payoutCurrencyType ≠ "CryptoCurrency" then
              { trace := [Item.dev .startNewTransaction] ++
                  emit c 2 (.error UnsupportedCurrencyError)
                completed := !isCancelled c 2
                postSubstRecipient := none
                apiAmount := some apiAmount }
            -- if (refundCurrency.type !== "CryptoCurrency") throw ...
            else if env.refundCurrencyType ≠ "CryptoCurrency" then
              { trace := [Item.dev .startNewTransaction] ++
                  emit c 2 (.error UnsupportedCurrencyError)
                completed := !isCancelled c 2
                postSubstRecipient := none
                apiAmount := some apiAmount }
            else
              -- transaction = accountBridge.updateTransaction(transaction,
              --   { recipient: swapResult.payinAddress })
              let tx1 : Transaction := { tx with recipient := sr.payinAddress }
              let ps : Option String := some tx1.recipient
              -- invariant(transaction.recipient !==
              --   getAbandonSeedAddress(refundCurrency.id), ...)
              if tx1.recipient = env.abandonSeedAddress env.refundCurrencyId then
                { trace := [Item.dev .startNewTransaction,
                    Item.bridge .updateTransaction] ++
                    emit c 2 (.error SecurityInvariantViolation)
                  completed := !isCancelled c 2
                  postSubstRecipient := ps
                  apiAmount := some apiAmount }
              else
                -- transaction = await accountBridge.prepareTransaction(...)
                match env.prepareTransactionR tx1 with
                | .error e =>
                    { trace := [Item.dev .startNewTransaction,
                        Item.bridge .updateTransaction,
                        Item.bridge .prepareTransaction] ++
                        emit c 3 (.error e)
                      completed := !isCancelled c 3
                      postSubstRecipient := ps
                      apiAmount := some apiAmount }
                | .ok tx2 =>
                  -- const { errors, estimatedFees } =
                  --   await accountBridge.getTransactionStatus(...)
                  match env.getTransactionStatusR tx2 with
                  | .error e =>
                      { trace := [Item.dev .startNewTransaction,
                          Item.bridge .updateTransaction,
                          Item.bridge .prepareTransaction,
                          Item.bridge .getTransactionStatus] ++
                          emit c 4 (.error e)
                        completed := !isCancelled c 4
                        postSubstRecipient := ps
                        apiAmount := some apiAmount }
                  | .ok st =>
                    let pre4 : List Item := [Item.dev .startNewTransaction,
                      Item.bridge .updateTransaction,
                      Item.bridge .prepareTransaction,
                      Item.bridge .getTransactionStatus]
                    -- if (errors.recipient || errors.amount)
                    --   throw errors.recipient || errors.amount
                    match st.recipientError, st.amountError with
                    | some e, _ =>
                        { trace := pre4 ++ emit c 4 (.error (.bridgeError e))
                          completed := !isCancelled c 4
                          postSubstRecipient := ps
                          apiAmount := some apiAmount }
                    | none, some e =>
                        { trace := pre4 ++ emit c 4 (.error (.bridgeError e))
                          completed := !isCancelled c 4
                          postSubstRecipient := ps
                          apiAmount := some apiAmount }
                    | none, none =>
                      -- await swap.setPartnerKey(...)
                      awaitStep c (pre4 ++ [Item.dev .setPartnerKey]) 5
                          env.setPartnerKeyR ps (some apiAmount) fun p5 =>
                      -- await swap.checkPartner(...)
                      awaitStep c (p5 ++ [Item.dev .checkPartner]) 6
                          env.checkPartnerR ps (some apiAmount) fun p6 =>
                      -- await swap.processTransaction(...)
                      awaitStep c (p6 ++ [Item.dev .processTransaction]) 7
                          env.processTransactionR ps (some apiAmount) fun p7 =>
                      -- const goodSign = secp256k1.signatureExport(...)
                      match env.signatureExportR with
                      | .error e =>
                          { trace := p7 ++ emit c 7 (.error e)
                            completed := !isCancelled c 7
                            postSubstRecipient := ps
                            apiAmount := some apiAmount }
                      | .ok _ =>
                        -- await swap.checkTransactionSignature(goodSign)
                        awaitStep c (p7 ++ [Item.dev .checkTransactionSignature]) 8
                            env.checkTransactionSignatureR ps (some apiAmount) fun p8 =>
                        -- const payoutAddressParameters = await perFamily[...]...
                        awaitStep c p8 9
                            env.payoutAddressParamsR ps (some apiAmount) fun p9 =>
                        -- await swap.checkPayoutAddress(...)
                        awaitStep c (p9 ++ [Item.dev .checkPayoutAddress]) 10
                            env.checkPayoutAddressR ps (some apiAmount) fun p10 =>
                        -- const refundAddressParameters = await perFamily[...]...
                        awaitStep c p10 11
                            env.refundAddressParamsR ps (some apiAmount) fun p11 =>
                        -- if (unsubscribed) return
                        if isCancelled c 11 then
                          { trace := p11
                            completed := false
                            postSubstRecipient := ps
                            apiAmount := some apiAmount }
                        else
                          -- o.next({ type: "init-swap-requested" })
                          -- await swap.checkRefundAddress(...)
                          awaitStep c (p11 ++ emit c 11 .requested ++
                              [Item.dev .checkRefundAddress]) 12
                              env.checkRefundAddressR ps (some apiAmount) fun p12 =>
                          -- await swap.signCoinTransaction()
                          awaitStep c (p12 ++ [Item.dev .signCoinTransaction]) 13
                              env.signCoinTransactionR ps (some apiAmount) fun p13 =>
                          -- if (unsubscribed) return
                          if isCancelled c 13 then
                            { trace := p13
                              completed := false
                              postSubstRecipient := ps
                              apiAmount := some apiAmount }
                          else
                            -- o.next({ type: "init-swap-result", ... });
                            -- then confirmSwap resolves and o.complete() fires.
                            { trace := p13 ++
                                emit c 13 (.result tx2 sr.swapId)
                              completed := true
                              postSubstRecipient := ps
                              apiAmount := some apiAmount }

/-- The delivered stream events of a run, with their emission times. -/
def RunOut.events (r : RunOut) : List (ℕ × Event) :=
  r.trace.filterMap fun i =>
    match i with
    | .ev t e => some (t, e)
    | _ => none

/-- The device commands issued during a run, in order. -/
def RunOut.devs (r : RunOut) : List DeviceCmd :=
  r.trace.filterMap fun i =>
    match i with
    | .dev d => some d
    | _ => none

/-- The bridge calls issued during a run, in order. -/
def RunOut.bridges (r : RunOut) : List BridgeCall :=
  r.trace.filterMap fun i =>
    match i with
    | .bridge b => some b
    | _ => none

/-- Number of terminal events among the delivered events. -/
def terminalCount (l : List (ℕ × Event)) : ℕ :=
  l.countP fun p => p.2.isTerminal

/-- Holds when at most one delivered event is terminal and no delivered
event follows a terminal one. -/
def atMostOneTerminalLast (l : List (ℕ × Event)) : Bool :=
  decide ((l.dropWhile fun p => !p.2.isTerminal).length ≤ 1)

/-- Well-formedness of the rate-lock response: the call either threw, or
resolved with a truthy object carrying a `data` field. -/
def netWellFormed (env : Env) : Bool :=
  match env.networkR with
  | .error _ => true
  | .ok none => false
  | .ok (some r) => r.data.isSome

/-- A representative locked quote, as the rate-lock service returns it. -/
def goodQuote : SwapResultData :=
  { swapId := "swap-1"
    provider := "changelly"
    payinAddress := "payin-addr-1"
    payloadHex := "0abc"
    signatureHex := "3045" }

/-- A fully successful environment: every collaborator resolves. -/
def envOk : Env :=
  { magnitude := 8
    refundCurrencyId := "bitcoin"
    refundCurrencyType := "CryptoCurrency"
    payoutCurrencyType := "CryptoCurrency"
    abandonSeedAddress := fun _ => "abandon-sentinel"
    startNewTransactionR := .ok "device-nonce-1"
    networkR := .ok (some { data := some [goodQuote] })
    prepareTransactionR := fun t => .ok t
    getTransactionStatusR := fun _ =>
      .ok { recipientError := none, amountError := none, estimatedFees := 10 }
    setPartnerKeyR := .ok ()
    checkPartnerR := .ok ()
    processTransactionR := .ok ()
    signatureExportR := .ok ()
    checkTransactionSignatureR := .ok ()
    payoutAddressParamsR := .ok ()
    checkPayoutAddressR := .ok ()
    refundAddressParamsR := .ok ()
    checkRefundAddressR := .ok ()
    signCoinTransactionR := .ok () }

/-- A representative draft transaction input. -/
def txEx : Transaction :=
  { amount := 150000000, recipient := "original-recipient" }

/-- Environment in which the rate-lock network call throws. -/
def envNetFail : Env := { envOk with networkR := .error () }

/-- Environment in which the rate-lock call resolves with an object that
has no `data` field. -/
def envNoData : Env := { envOk with networkR := .ok (some { data := none }) }

/-- Environment in which the payout currency is a token. -/
def envNonCrypto : Env := { envOk with payoutCurrencyType := "TokenCurrency" }

/-- The quote whose payin address collides with the abandon sentinel. -/
def abandonQuote : SwapResultData :=
  { goodQuote with payinAddress := "abandon-sentinel" }

/-- Environment in which the quote's payin address is the refund
currency's abandon-seed sentinel. -/
def envAbandon : Env :=
  { envOk with networkR := .ok (some { data := some [abandonQuote] }) }

/-- A bridge status carrying a recipient validation error. -/
def errStatus : TxStatus :=
  { recipientError := some "InvalidAddress"
    amountError := none
    estimatedFees := 10 }

/-- Environment in which the bridge reports a recipient validation error. -/
def envValErr : Env :=
  { envOk with getTransactionStatusR := fun _ => .ok errStatus }

/-- Environment with a unit magnitude beyond the 20 decimal places kept by
`BigNumber#div`, and a failing network call (shortest path that still
records the transmitted amount). -/
def envMag21 : Env := { envOk with magnitude := 21, networkR := .error () }

/-- Index of the first occurrence of `x` in `l`. -/
def firstIdx (l : List Item) (x : Item) : ℕ :=
  l.findIdx fun y => decide (y = x)

/-- Whether an item is compatible with cancellation point `c`: delivered
events must have been emitted while the subscriber was still open. -/
def evOpen (c : Option ℕ) : Item → Bool
  | .ev t _ => !isCancelled c t
  | _ => true

theorem all_evOpen_emit (c : Option ℕ) (t : ℕ) (e : Event) :
    (emit c t e).all (evOpen c) = true := by
  unfold emit
  split_ifs with h <;> simp [evOpen, h]

set_option maxHeartbeats 1600000 in
theorem trace_events_open (env : Env) (tx : Transaction) (c : Option ℕ) :
    (initSwap env tx c).trace.all (evOpen c) = true := by
  simp only [initSwap, awaitStep]
  repeat' split
  all_goals simp [List.all_append, all_evOpen_emit, evOpen]

/-- C2: for every environment, every draft transaction and every
cancellation point `k` (the consumer unsubscribes while the `k`-th awaited
call is in flight), every delivered event was emitted strictly before time
`k`: after cancellation no event of any kind reaches the consumer, not
even the error that a failing in-flight call would otherwise produce. -/
theorem init_swap_no_event_after_cancellation (env : Env) (tx : Transaction)
    (k : ℕ) (p : ℕ × Event)
    (hp : p ∈ (initSwap env tx (some k)).events) : p.1 < k := by
  obtain ⟨i, hi, hfi⟩ := List.mem_filterMap.1 hp
  have hall := trace_events_open env tx (some k)
  rw [List.all_eq_true] at hall
  have hopen := hall i hi
  rcases i with ⟨t, e⟩ | d | b
  · obtain rfl : (t, e) = p := by simpa using hfi
    simp only [evOpen, isCancelled, Bool.not_eq_true', decide_eq_false_iff_not,
      Nat.not_le] at hopen
    exact hopen
  · simp at hfi
  · simp at hfi

/-- Witness for C2 at a concrete input: with the network call failing and
cancellation requested during suspension 5, the delivered error event of
time 2 indeed precedes the cancellation point. -/
theorem init_swap_no_event_after_cancellation_witness :
    ((2, Event.error .swapGenericAPIError) : ℕ × Event) ∈
      (initSwap envNetFail txEx (some 5)).events ∧
    ((2, Event.error .swapGenericAPIError) : ℕ × Event).1 < 5 :=
  ⟨by decide,
   init_swap_no_event_after_cancellation envNetFail txEx 5 _ (by decide)⟩

/-- C3 (amended): if `startNewTransaction` resolves and the rate-lock
network call fails, the flow terminates with `SwapGenericAPIError` as its
single (error) event, and the only device command issued during the whole
invocation is the initial `startNewTransaction` nonce acquisition — no
further device command follows. -/
theorem init_swap_network_failure_generic_error (env : Env)
    (tx : Transaction) (d : String)
    (hstart : env.startNewTransactionR = .ok d)
    (hnet : env.networkR = .error ()) :
    (initSwap env tx none).events = [(2, .error .swapGenericAPIError)] ∧
    (initSwap env tx none).devs = [.startNewTransaction] := by
  simp [initSwap, hstart, hnet, RunOut.events, RunOut.devs, emit, isCancelled]

/-- Witness for C3 at a concrete input. -/
theorem init_swap_network_failure_generic_error_witness :
    (initSwap envNetFail txEx none).events =
      [(2, .error .swapGenericAPIError)] ∧
    (initSwap envNetFail txEx none).devs = [.startNewTransaction] :=
  init_swap_network_failure_generic_error envNetFail txEx "device-nonce-1"
    rfl rfl

/-- C3 counterexample: the claim as stated also says no device command is
issued during the whole invocation when the rate-lock call fails; in fact
the flow has already issued `startNewTransaction` (the rate-lock request
needs the device nonce), so the device-command list is nonempty. -/
theorem init_swap_network_failure_device_command_issued :
    (initSwap envNetFail txEx none).events =
      [(2, .error .swapGenericAPIError)] ∧
    (initSwap envNetFail txEx none).devs ≠ [] := by decide

/-- C4 (amended): when the flow reaches the currency-type check (device
nonce acquired, rate lock resolved with a nonempty data array) and either
currency is not of type `CryptoCurrency`, the flow terminates with the
unsupported-currency error as its single event, before any bridge call on
the draft transaction and before any device command other than the
initial `startNewTransaction` nonce acquisition. -/
theorem init_swap_non_crypto_currency_unsupported_error (env : Env)
    (tx : Transaction) (d : String) (res : NetResponse) (sr : SwapResultData)
    (rest : List SwapResultData)
    (hstart : env.startNewTransactionR = .ok d)
    (hnet : env.networkR = .ok (some res))
    (hdata : res.data = some (sr :: rest))
    (hty : env.payoutCurrencyType ≠ "CryptoCurrency" ∨
      env.refundCurrencyType ≠ "CryptoCurrency") :
    (initSwap env tx none).events = [(2, .error UnsupportedCurrencyError)] ∧
    (initSwap env tx none).devs = [.startNewTransaction] ∧
    (initSwap env tx none).bridges = [] := by
  by_cases hpay : env.payoutCurrencyType = "CryptoCurrency"
  · have href : env.refundCurrencyType ≠ "CryptoCurrency" := by
      rcases hty with h | h
      · exact absurd hpay h
      · exact h
    simp [initSwap, hstart, hnet, hdata, hpay, href, RunOut.events,
      RunOut.devs, RunOut.bridges, emit, isCancelled]
  · simp [initSwap, hstart, hnet, hdata, hpay, RunOut.events, RunOut.devs,
      RunOut.bridges, emit, isCancelled]

/-- Witness for C4 at a concrete input. -/
theorem init_swap_non_crypto_currency_unsupported_error_witness :
    (initSwap envNonCrypto txEx none).events =
      [(2, .error UnsupportedCurrencyError)] ∧
    (initSwap envNonCrypto txEx none).devs = [.startNewTransaction] ∧
    (initSwap envNonCrypto txEx none).bridges = [] :=
  init_swap_non_crypto_currency_unsupported_error envNonCrypto txEx
    "device-nonce-1" { data := some [goodQuote] } goodQuote [] rfl rfl rfl
    (Or.inl (by decide))

/-- C4 counterexample: the claim as stated says the unsupported-currency
failure occurs before any device interaction; in fact `startNewTransaction`
has already been issued when the check runs, so the device-command list is
nonempty. -/
theorem init_swap_non_crypto_currency_device_command_issued :
    (initSwap envNonCrypto txEx none).events =
      [(2, .error UnsupportedCurrencyError)] ∧
    (initSwap envNonCrypto txEx none).devs ≠ [] := by decide

/-- C5 (amended): when, after the recipient substitution, the draft
transaction's recipient equals the refund currency's abandon-seed sentinel
address, the flow terminates with the security-invariant violation as its
single event, before `prepareTransaction` and before any device command
other than the initial `startNewTransaction` nonce acquisition. -/
theorem init_swap_abandon_recipient_invariant_error (env : Env)
    (tx : Transaction) (d : String) (res : NetResponse) (sr : SwapResultData)
    (rest : List SwapResultData)
    (hstart : env.startNewTransactionR = .ok d)
    (hnet : env.networkR = .ok (some res))
    (hdata : res.data = some (sr :: rest))
    (hpay : env.payoutCurrencyType = "CryptoCurrency")
    (href : env.refundCurrencyType = "CryptoCurrency")
    (hab : sr.payinAddress = env.abandonSeedAddress env.refundCurrencyId) :
    (initSwap env tx none).events = [(2, .error SecurityInvariantViolation)] ∧
    (initSwap env tx none).devs = [.startNewTransaction] ∧
    (initSwap env tx none).bridges = [.updateTransaction] := by
  simp [initSwap, hstart, hnet, hdata, hpay, href, hab, RunOut.events,
    RunOut.devs, RunOut.bridges, emit, isCancelled]

/-- Witness for C5 at a concrete input. -/
theorem init_swap_abandon_recipient_invariant_error_witness :
    (initSwap envAbandon txEx none).events =
      [(2, .error SecurityInvariantViolation)] ∧
    (initSwap envAbandon txEx none).devs = [.startNewTransaction] ∧
    (initSwap envAbandon txEx none).bridges = [.updateTransaction] :=
  init_swap_abandon_recipient_invariant_error envAbandon txEx
    "device-nonce-1" { data := some [abandonQuote] } abandonQuote [] rfl rfl
    rfl rfl rfl rfl

/-- C5 counterexample: the claim as stated says the failure occurs before
any device call is made; in fact `startNewTransaction` has already been
issued, so the device-command list is nonempty. -/
theorem init_swap_abandon_recipient_device_command_issued :
    (initSwap envAbandon txEx none).events =
      [(2, .error SecurityInvariantViolation)] ∧
    (initSwap envAbandon txEx none).devs ≠ [] := by decide

/-- C6 (amended): when the bridge's transaction status carries a recipient
or amount error, the flow terminates with the first non-null of
{recipient error, amount error} as its single (error) event, and no
device command is issued beyond the initial `startNewTransaction` nonce
acquisition. -/
theorem init_swap_validation_error_first_non_null (env : Env)
    (tx : Transaction) (d : String) (res : NetResponse) (sr : SwapResultData)
    (rest : List SwapResultData) (tx2 : Transaction) (st : TxStatus)
    (e : String)
    (hstart : env.startNewTransactionR = .ok d)
    (hnet : env.networkR = .ok (some res))
    (hdata : res.data = some (sr :: rest))
    (hpay : env.payoutCurrencyType = "CryptoCurrency")
    (href : env.refundCurrencyType = "CryptoCurrency")
    (hab : sr.payinAddress ≠ env.abandonSeedAddress env.refundCurrencyId)
    (hprep : env.prepareTransactionR { tx with recipient := sr.payinAddress }
      = .ok tx2)
    (hstat : env.getTransactionStatusR tx2 = .ok st)
    (herr : st.recipientError = some e ∨
      (st.recipientError = none ∧ st.amountError = some e)) :
    (initSwap env tx none).events = [(4, .error (.bridgeError e))] ∧
    (initSwap env tx none).devs = [.startNewTransaction] := by
  rcases herr with h | ⟨h1, h2⟩
  · simp [initSwap, hstart, hnet, hdata, hpay, href, hab, hprep, hstat, h,
      RunOut.events, RunOut.devs, emit, isCancelled]
  · simp [initSwap, hstart, hnet, hdata, hpay, href, hab, hprep, hstat, h1,
      h2, RunOut.events, RunOut.devs, emit, isCancelled]

/-- Witness for C6 at a concrete input. -/
theorem init_swap_validation_error_first_non_null_witness :
    (initSwap envValErr txEx none).events =
      [(4, .error (.bridgeError "InvalidAddress"))] ∧
    (initSwap envValErr txEx none).devs = [.startNewTransaction] :=
  init_swap_validation_error_first_non_null envValErr txEx "device-nonce-1"
    { data := some [goodQuote] } goodQuote []
    { txEx with recipient := "payin-addr-1" } errStatus "InvalidAddress"
    rfl rfl rfl rfl rfl (by decide) rfl rfl (Or.inl rfl)

/-- C6 counterexample: the claim as stated says no device commands are
issued when validation fails; in fact `startNewTransaction` has already
been issued, so the device-command list is nonempty. -/
theorem init_swap_validation_error_device_command_issued :
    (initSwap envValErr txEx none).events =
      [(4, .error (.bridgeError "InvalidAddress"))] ∧
    (initSwap envValErr txEx none).devs ≠ [] := by decide

/-- C10: if the device nonce is acquired and the rate-lock call resolves
without throwing but with a falsy response or a response lacking a `data`
field, the flow emits no event at all and the stream simply completes. -/
theorem init_swap_malformed_response_no_events (env : Env) (tx : Transaction)
    (d : String) (hstart : env.startNewTransactionR = .ok d)
    (hnet : env.networkR = .ok none ∨
      ∃ res, env.networkR = .ok (some res) ∧ res.data = none) :
    (initSwap env tx none).events = [] ∧
    (initSwap env tx none).completed = true := by
  rcases hnet with h | ⟨res, h, hd⟩
  · simp [initSwap, hstart, h, RunOut.events, isCancelled]
  · simp [initSwap, hstart, h, hd, RunOut.events, isCancelled]

/-- Witness for C10 at a concrete input. -/
theorem init_swap_malformed_response_no_events_witness :
    (initSwap envNoData txEx none).events = [] ∧
    (initSwap envNoData txEx none).completed = true :=
  init_swap_malformed_response_no_events envNoData txEx "device-nonce-1" rfl
    (Or.inr ⟨{ data := none }, rfl, rfl⟩)

set_option maxHeartbeats 1600000 in
/-- C8: once the rate-lock call resolved with a quote (nonempty data
array), whenever the substitution step runs the draft transaction's
recipient right after it is exactly the quote's payin address; moreover
the entire observable run is independent of the draft transaction's
original recipient — the original value is discarded, regardless of what
it was. -/
theorem init_swap_recipient_overwritten_with_payin_address (env : Env)
    (a : ℤ) (r1 r2 : String) (c : Option ℕ) (res : NetResponse)
    (sr : SwapResultData) (rest : List SwapResultData)
    (hnet : env.networkR = .ok (some res))
    (hdata : res.data = some (sr :: rest)) :
    ((initSwap env { amount := a, recipient := r1 } c).postSubstRecipient
        = none ∨
      (initSwap env { amount := a, recipient := r1 } c).postSubstRecipient
        = some sr.payinAddress) ∧
    initSwap env { amount := a, recipient := r1 } c =
      initSwap env { amount := a, recipient := r2 } c := by
  constructor
  · simp only [initSwap, awaitStep, hnet, hdata]
    repeat' split
    all_goals simp
  · rfl

/-- Witness for C8 at a concrete input. -/
theorem init_swap_recipient_overwritten_with_payin_address_witness :
    ((initSwap envOk { amount := 150000000, recipient := "original-recipient" }
        none).postSubstRecipient = none ∨
      (initSwap envOk { amount := 150000000, recipient := "original-recipient" }
        none).postSubstRecipient = some goodQuote.payinAddress) ∧
    initSwap envOk { amount := 150000000, recipient := "original-recipient" }
        none =
      initSwap envOk { amount := 150000000, recipient := "another-recipient" }
        none :=
  init_swap_recipient_overwritten_with_payin_address envOk 150000000
    "original-recipient" "another-recipient" none { data := some [goodQuote] }
    goodQuote [] rfl rfl

/-- C9 (amended): in every successful flow the orchestrator emits
`requested` exactly once, after the first five device steps
(`setPartnerKey`, `checkPartner`, `processTransaction`,
`checkTransactionSignature`, `checkPayoutAddress`) and before
`checkRefundAddress` and `signCoinTransaction`; the device commands are
issued in this fixed order, each awaited before the next, as the fully
determined trace shows. -/
theorem init_swap_success_trace_fixed_order (env : Env) (tx : Transaction)
    (d : String) (res : NetResponse) (sr : SwapResultData)
    (rest : List SwapResultData) (tx2 : Transaction) (st : TxStatus)
    (hstart : env.startNewTransactionR = .ok d)
    (hnet : env.networkR = .ok (some res))
    (hdata : res.data = some (sr :: rest))
    (hpay : env.payoutCurrencyType = "CryptoCurrency")
    (href : env.refundCurrencyType = "CryptoCurrency")
    (hab : sr.payinAddress ≠ env.abandonSeedAddress env.refundCurrencyId)
    (hprep : env.prepareTransactionR { tx with recipient := sr.payinAddress }
      = .ok tx2)
    (hstat : env.getTransactionStatusR tx2 = .ok st)
    (hrec : st.recipientError = none) (ham : st.amountError = none)
    (h5 : env.setPartnerKeyR = .ok ()) (h6 : env.checkPartnerR = .ok ())
    (h7 : env.processTransactionR = .ok ())
    (hse : env.signatureExportR = .ok ())
    (h8 : env.checkTransactionSignatureR = .ok ())
    (h9 : env.payoutAddressParamsR = .ok ())
    (h10 : env.checkPayoutAddressR = .ok ())
    (h11 : env.refundAddressParamsR = .ok ())
    (h12 : env.checkRefundAddressR = .ok ())
    (h13 : env.signCoinTransactionR = .ok ()) :
    (initSwap env tx none).trace =
      [Item.dev .startNewTransaction, Item.bridge .updateTransaction,
       Item.bridge .prepareTransaction, Item.bridge .getTransactionStatus,
       Item.dev .setPartnerKey, Item.dev .checkPartner,
       Item.dev .processTransaction, Item.dev .checkTransactionSignature,
       Item.dev .checkPayoutAddress, Item.ev 11 .requested,
       Item.dev .checkRefundAddress, Item.dev .signCoinTransaction,
       Item.ev 13 (.result tx2 sr.swapId)] := by
  simp [initSwap, awaitStep, hstart, hnet, hdata, hpay, href, hab, hprep,
    hstat, hrec, ham, h5, h6, h7, hse, h8, h9, h10, h11, h12, h13, emit,
    isCancelled]

/-- Witness for C9 at a concrete input. -/
theorem init_swap_success_trace_fixed_order_witness :
    (initSwap envOk txEx none).trace =
      [Item.dev .startNewTransaction, Item.bridge .updateTransaction,
       Item.bridge .prepareTransaction, Item.bridge .getTransactionStatus,
       Item.dev .setPartnerKey, Item.dev .checkPartner,
       Item.dev .processTransaction, Item.dev .checkTransactionSignature,
       Item.dev .checkPayoutAddress, Item.ev 11 .requested,
       Item.dev .checkRefundAddress, Item.dev .signCoinTransaction,
       Item.ev 13 (.result { amount := 150000000, recipient := "payin-addr-1" }
         goodQuote.swapId)] :=
  init_swap_success_trace_fixed_order envOk txEx "device-nonce-1"
    { data := some [goodQuote] } goodQuote []
    { amount := 150000000, recipient := "payin-addr-1" }
    { recipientError := none, amountError := none, estimatedFees := 10 }
    rfl rfl rfl rfl rfl (by decide) rfl rfl rfl rfl rfl rfl rfl rfl rfl rfl
    rfl rfl rfl rfl

/-- C9 counterexample: at a fully successful concrete input the
`requested` event is not emitted before device steps 2-6: the first
`setPartnerKey` command occurs strictly before the first (and only)
`requested` emission in the trace. -/
theorem init_swap_requested_after_partner_key :
    Item.ev 11 .requested ∈ (initSwap envOk txEx none).trace ∧
    Item.dev .setPartnerKey ∈ (initSwap envOk txEx none).trace ∧
    firstIdx (initSwap envOk txEx none).trace (.dev .setPartnerKey) <
      firstIdx (initSwap envOk txEx none).trace (.ev 11 .requested) := by
  decide

theorem events_emit (c : Option ℕ) (t : ℕ) (e : Event) :
    (emit c t e).filterMap
      (fun i => match i with
        | Item.ev u f => some (u, f)
        | _ => none) =
      if isCancelled c t then [] else [(t, e)] := by
  unfold emit
  split_ifs <;> simp

set_option maxHeartbeats 1600000 in
/-- C1 (amended): every run delivers at most one terminal event and no
event is delivered after a terminal one; moreover, when no cancellation is
requested and the rate-lock call either throws or resolves with a truthy
response carrying a `data` field, exactly one terminal event is
delivered.  (When the call resolves with a falsy response or one lacking
`data`, the flow completes with no terminal event at all — see the
counterexample.) -/
theorem init_swap_at_most_one_terminal_event (env : Env) (tx : Transaction)
    (c : Option ℕ) :
    atMostOneTerminalLast (initSwap env tx c).events = true ∧
    (c = none → netWellFormed env = true →
      terminalCount (initSwap env tx c).events = 1) := by
  constructor
  · simp only [initSwap, awaitStep]
    repeat' split
    all_goals simp [atMostOneTerminalLast, RunOut.events, events_emit,
      Event.isTerminal, List.dropWhile]
    all_goals split_ifs <;> simp [Event.isTerminal, List.dropWhile]
  · intro hc hw
    subst hc
    simp only [initSwap, awaitStep]
    repeat' split
    all_goals first
      | (simp [terminalCount, RunOut.events, emit, isCancelled,
           Event.isTerminal]; done)
      | simp_all [netWellFormed, isCancelled]

/-- Witness for C1 at a concrete input: in the all-success environment the
response is well formed and exactly one terminal event is delivered. -/
theorem init_swap_at_most_one_terminal_event_witness :
    netWellFormed envOk = true ∧
    terminalCount (initSwap envOk txEx none).events = 1 :=
  ⟨by decide,
   (init_swap_at_most_one_terminal_event envOk txEx none).2 rfl (by decide)⟩

/-- C1 counterexample: with valid inputs but a rate-lock response lacking a
`data` field, the stream completes with zero terminal events, refuting
"never neither". -/
theorem init_swap_missing_data_no_terminal_event :
    terminalCount (initSwap envNoData txEx none).events = 0 ∧
    (initSwap envNoData txEx none).completed = true := by decide

theorem floor_half : ⌊(1 / 2 : ℚ)⌋ = 0 := by
  rw [Int.floor_eq_zero_iff]
  constructor <;> norm_num

theorem halfUpRound_intCast (z : ℤ) : halfUpRound (z : ℚ) = z := by
  unfold halfUpRound
  split_ifs with h
  · rw [← Int.cast_neg, add_comm, Int.floor_add_int, floor_half]
    ring
  · rw [add_comm, Int.floor_add_int, floor_half]
    ring

/-- Dividing an integer by `10 ^ m` with `m` at most the 20 decimal
places retained by `BigNumber#div` is exact. -/
theorem bnDiv_pow_exact (a : ℤ) (m : ℕ) (hm : m ≤ 20) :
    bnDiv (a : ℚ) (10 ^ m) = (a : ℚ) / 10 ^ m := by
  have hme : m + (20 - m) = 20 := by omega
  have hsplit : (10 : ℚ) ^ 20 = 10 ^ m * 10 ^ (20 - m) := by
    rw [← pow_add, hme]
  have hpm : ((10 : ℚ) ^ m) ≠ 0 := by positivity
  have h1 : (a : ℚ) / 10 ^ m * 10 ^ 20 = ((a * 10 ^ (20 - m) : ℤ) : ℚ) := by
    push_cast
    rw [hsplit]
    field_simp
    ring
  have hq : ((a * 10 ^ (20 - m) : ℤ) : ℚ) / 10 ^ 20 = (a : ℚ) / 10 ^ m := by
    push_cast
    rw [hsplit, div_eq_div_iff (by positivity) hpm]
    ring
  unfold bnDiv
  rw [h1, halfUpRound_intCast, hq]

set_option maxHeartbeats 1600000 in
/-- C7 (amended): for every amount and every unit magnitude up to the 20
decimal places retained by `BigNumber#div` under its default
configuration, the amount transmitted in the rate-lock request equals
`amount / 10 ^ magnitude` as exact rational division (no floating-point
involved); beyond 20 decimal places the library rounds — see the
counterexample. -/
theorem init_swap_api_amount_exact (env : Env) (tx : Transaction)
    (c : Option ℕ) (d : String)
    (hstart : env.startNewTransactionR = .ok d)
    (hm : env.magnitude ≤ 20) :
    (initSwap env tx c).apiAmount =
      some ((tx.amount : ℚ) / 10 ^ env.magnitude) := by
  have hb := bnDiv_pow_exact tx.amount env.magnitude hm
  simp only [initSwap, awaitStep, hstart]
  repeat' split
  all_goals simp [hb]

/-- Witness for C7 at the spec's own example: amount 150000000 with
magnitude 8 transmits exactly 1.5. -/
theorem init_swap_api_amount_exact_witness :
    (initSwap envOk txEx none).apiAmount = some ((3 : ℚ) / 2) := by
  have h := init_swap_api_amount_exact envOk txEx none "device-nonce-1" rfl
    (by decide)
  rw [h]
  norm_num [txEx, envOk]

theorem bnDiv_one_pow21 : bnDiv ((1 : ℤ) : ℚ) ((10 : ℚ) ^ (21 : ℕ)) = 0 := by
  have h : ((1 : ℤ) : ℚ) / 10 ^ (21 : ℕ) * 10 ^ (20 : ℕ) = 1 / 10 := by
    norm_num
  unfold bnDiv
  rw [h]
  unfold halfUpRound
  rw [if_neg (by norm_num)]
  have h2 : ⌊(1 / 10 : ℚ) + 1 / 2⌋ = 0 := by
    rw [Int.floor_eq_zero_iff]
    constructor <;> norm_num
  rw [h2]
  norm_num

/-- C7 counterexample: with unit magnitude 21 and amount 1, the
transmitted amount is 0 (the quotient 1e-21 is rounded away at the
library's 20 decimal places), not the exact quotient `1 / 10 ^ 21`:
the claim fails for magnitudes beyond 20. -/
theorem init_swap_api_amount_rounded_at_magnitude_21 :
    (initSwap envMag21 { amount := 1, recipient := "r1" } none).apiAmount
      = some 0 ∧ (0 : ℚ) ≠ 1 / 10 ^ (21 : ℕ) := by
  constructor
  · have h : (initSwap envMag21 { amount := 1, recipient := "r1" }
        none).apiAmount
        = some (bnDiv ((1 : ℤ) : ℚ) ((10 : ℚ) ^ (21 : ℕ))) := rfl
    rw [h, bnDiv_one_pow21]
  · norm_num

end InitSwap
